import Mathlib

/-!
Shallow embedding of the Google-Drive gateway server (server file of the
repository, together with the credential bootstrap in index.js).

The remote Drive backend is modelled by a record of oracles (`DriveEnv`):
one function per remote endpoint the code calls (files.create,
permissions.create, files.update, files.get, files.delete) plus a file
store with Drive-query semantics for files.list.  The local scratch
filesystem is a list of existing paths.  Each service function of the
source is translated into a Lean function over these models; the
sequencing of awaited calls inside one action is recorded as a trace of
`Call` events, in the order the source performs them.
-/

set_option maxRecDepth 8000

/-- The single-quote character of the Drive query grammar. -/
def quoteC : Char := Char.ofNat 39

/-- One-character string holding the single quote. -/
def quoteS : String := String.singleton quoteC

/-- A file staged on local disk by multer: `req.file` in the source
(`originalname`, `path`, `mimetype`). -/
structure TempFile where
  originalname : String
  path : String
  mimetype : String
deriving DecidableEq

/-- The response data of `drive.files.create` / `drive.files.update` with
`fields: "id, name"`: only the identifier and the display name. -/
structure FileIdName where
  id : String
  name : String
deriving DecidableEq

/-- The request body of `drive.files.create`. -/
structure CreateReq where
  name : String
  mimeType : String
  parents : List String
deriving DecidableEq

/-- The request body of `drive.permissions.create`. -/
structure PermReq where
  fileId : String
  role : String
  type : String
deriving DecidableEq

/-- The request body of `drive.files.update`. -/
structure UpdateReq where
  fileId : String
  name : String
  mimeType : String
deriving DecidableEq

/-- One entry of a `drive.files.list` response with
`fields: "files(id, name, mimeType)"` (the extra link fields of the
list-all route are not claim-relevant and are omitted). -/
structure DriveFile where
  id : String
  name : String
  mimeType : String
deriving DecidableEq

/-- The response of `drive.files.get` with
`fields: "id, name, mimeType, webViewLink, webContentLink, parents"`.
Note: it has no public-download-link field. -/
structure MetaResp where
  id : String
  name : String
  mimeType : String
  webViewLink : String
  webContentLink : String
  parents : List String
deriving DecidableEq

/-- The metadata record `getFileMetadataFromDrive` returns to its caller:
the backend response plus the locally added `publicDownloadLink`. -/
structure FileMetadata where
  id : String
  name : String
  mimeType : String
  webViewLink : String
  webContentLink : String
  parents : List String
  publicDownloadLink : String
deriving DecidableEq

/-- Errors surfaced by the remote backend (the code logs and rethrows
them unchanged, so a plain message suffices). -/
abbrev DriveErr := String

/-- The local scratch filesystem: the list of paths that exist. -/
abbrev FS := List String

/-- `fs.unlinkSync p`: afterwards the path `p` no longer exists. -/
def unlink (fs : FS) (p : String) : FS := fs.filter (fun q => q ≠ p)

/-! ### Drive query strings and their backend semantics

The code builds `q` strings by raw template interpolation.  The backend
interprets them per the Drive query grammar; the three clause shapes the
code ever produces are `name contains '<v>'`, `mimeType = '<v>'` and
`mimeType != '<v>'`, with `<v>` a single-quoted literal terminated by the
first quote character.  A string that does not parse is an invalid query
and the backend rejects it. -/

inductive DriveQuery where
  | nameContains (v : String)
  | mimeEq (v : String)
  | mimeNe (v : String)
deriving DecidableEq

/-- Split a character list at every quote character. -/
def splitQuote : List Char → List (List Char)
  | [] => [[]]
  | c :: cs =>
    let rest := splitQuote cs
    if c = quoteC then [] :: rest
    else
      match rest with
      | [] => [[c]]
      | s :: ss => (c :: s) :: ss

/-- Parse `<v>'` where `<v>` holds no quote: the quoted value must end the
string, anything after the closing quote makes the query malformed. -/
def parseQuotedExact (cs : List Char) : Option (List Char) :=
  match splitQuote cs with
  | [v, []] => some v
  | _ => none

def dropPfx (p cs : List Char) : Option (List Char) :=
  if p.isPrefixOf cs then some (cs.drop p.length) else none

def containsClauseHead : List Char := "name contains ".toList ++ [quoteC]
def mimeEqClauseHead : List Char := "mimeType = ".toList ++ [quoteC]
def mimeNeClauseHead : List Char := "mimeType != ".toList ++ [quoteC]

/-- Drive-grammar reading of a query string; `none` = invalid query. -/
def parseQuery (q : String) : Option DriveQuery :=
  match dropPfx containsClauseHead q.toList with
  | some rest => (parseQuotedExact rest).map (fun v => DriveQuery.nameContains (String.mk v))
  | none =>
    match dropPfx mimeEqClauseHead q.toList with
    | some rest => (parseQuotedExact rest).map (fun v => DriveQuery.mimeEq (String.mk v))
    | none =>
      match dropPfx mimeNeClauseHead q.toList with
      | some rest => (parseQuotedExact rest).map (fun v => DriveQuery.mimeNe (String.mk v))
      | none => none

/-- Substring test on character lists. -/
def subListOf : List Char → List Char → Bool
  | n, [] => n.isEmpty
  | n, c :: cs => n.isPrefixOf (c :: cs) || subListOf n cs

/-- `containsStr needle hay`: `needle` occurs as a substring of `hay`. -/
def containsStr (needle hay : String) : Bool := subListOf needle.toList hay.toList

/-- Which stored files a parsed query matches (Drive backend filter). -/
def matchesQuery : DriveQuery → DriveFile → Bool
  | DriveQuery.nameContains v, f => containsStr v f.name
  | DriveQuery.mimeEq v, f => f.mimeType == v
  | DriveQuery.mimeNe v, f => f.mimeType != v

/-! ### The remote backend model -/

/-- The remote Drive backend as seen through the googleapis client: one
oracle per endpoint, plus a file store with query semantics for list
calls and an optional list-call transport failure. -/
structure DriveEnv where
  filesCreate : CreateReq → Except DriveErr FileIdName
  permissionsCreate : PermReq → Except DriveErr Unit
  filesUpdate : UpdateReq → Except DriveErr FileIdName
  filesGet : String → Except DriveErr MetaResp
  filesDelete : String → Except DriveErr Nat
  store : List DriveFile
  listErr : Option DriveErr

/-- `drive.files.list({ q })`: on transport failure the error propagates;
otherwise the store is filtered by the query, an unparsable query being
rejected by the backend. -/
def filesList (env : DriveEnv) (q : String) : Except DriveErr (List DriveFile) :=
  match env.listErr with
  | some e => Except.error e
  | none =>
    match parseQuery q with
    | some flt => Except.ok (env.store.filter (matchesQuery flt))
    | none => Except.error "invalid query"

/-! ### Remote-call traces -/

/-- The awaited calls one service action performs, in source order. -/
inductive Call where
  | createFile (req : CreateReq)
  | createPermission (req : PermReq)
  | updateFile (req : UpdateReq)
  | deleteFile (id : String)
  | listFiles (q : String)
  | getFile (id : String)
  | unlinkLocal (p : String)
deriving DecidableEq

/-- Remote-backend calls (everything but the local unlink). -/
def Call.isRemote : Call → Bool
  | Call.unlinkLocal _ => false
  | _ => true

/-- Local temporary-file cleanup. -/
def Call.isCleanup : Call → Bool
  | Call.unlinkLocal _ => true
  | _ => false

/-- Outcome of a service action: its returned value or propagated error,
the local filesystem afterwards, and the trace of calls it made. -/
structure ActionOut (α : Type) where
  result : Except DriveErr α
  fs : FS
  calls : List Call

/-! ### The Drive service functions (server file, lines 43-226) -/

/-- The `fileMetadata` object `uploadFileToDrive` builds. -/
def mkUploadCreateReq (file : TempFile) (fileType : String) (folderId : Option String) : CreateReq :=
  { name := file.originalname
    mimeType := fileType
    parents := match folderId with | some f => [f] | none => [] }

/-- `uploadFileToDrive(file, fileType, folderId)`: create the file
remotely, make it public via a permission grant on the returned id, then
delete the local temporary file; any failure is logged and rethrown
before the unlink runs. -/
def uploadFileToDrive (env : DriveEnv) (fs : FS) (file : TempFile)
    (fileType : String) (folderId : Option String) : ActionOut FileIdName :=
  let req := mkUploadCreateReq file fileType folderId
  match env.filesCreate req with
  | Except.error e => ⟨Except.error e, fs, [Call.createFile req]⟩
  | Except.ok data =>
    let preq : PermReq := ⟨data.id, "reader", "anyone"⟩
    match env.permissionsCreate preq with
    | Except.error e => ⟨Except.error e, fs, [Call.createFile req, Call.createPermission preq]⟩
    | Except.ok _ =>
      ⟨Except.ok data, unlink fs file.path,
        [Call.createFile req, Call.createPermission preq, Call.unlinkLocal file.path]⟩

/-- The `fileMetadata` object `updateFileInDrive` builds. -/
def mkUpdateReq (fileId : String) (newFile : TempFile) (fileType : String) : UpdateReq :=
  ⟨fileId, newFile.originalname, fileType⟩

/-- `updateFileInDrive(fileId, newFile, fileType)`: update the remote
file in place, then delete the local temporary file; a failure is logged
and rethrown before the unlink runs. -/
def updateFileInDrive (env : DriveEnv) (fs : FS) (fileId : String)
    (newFile : TempFile) (fileType : String) : ActionOut FileIdName :=
  let req := mkUpdateReq fileId newFile fileType
  match env.filesUpdate req with
  | Except.error e => ⟨Except.error e, fs, [Call.updateFile req]⟩
  | Except.ok data =>
    ⟨Except.ok data, unlink fs newFile.path,
      [Call.updateFile req, Call.unlinkLocal newFile.path]⟩

/-- The fixed prefix of the synthesized public download link. -/
def ucLinkBase : String := "https://drive.google.com/uc?id="

/-- `getFileMetadataFromDrive(fileId)`: fetch the metadata fields and add
`publicDownloadLink` locally from the returned id. -/
def getFileMetadataFromDrive (env : DriveEnv) (fileId : String) : Except DriveErr FileMetadata :=
  match env.filesGet fileId with
  | Except.error e => Except.error e
  | Except.ok m =>
    Except.ok
      { id := m.id, name := m.name, mimeType := m.mimeType
        webViewLink := m.webViewLink, webContentLink := m.webContentLink
        parents := m.parents
        publicDownloadLink := ucLinkBase ++ m.id }

/-- `deleteFileFromDrive(fileId)`: returns the backend status code. -/
def deleteFileFromDrive (env : DriveEnv) (fileId : String) : Except DriveErr Nat :=
  env.filesDelete fileId

/-- The query string `searchFileInDrive` interpolates. -/
def searchQuery (fileName : String) : String :=
  "name contains " ++ quoteS ++ fileName ++ quoteS

/-- `searchFileInDrive(fileName)`. -/
def searchFileInDrive (env : DriveEnv) (fileName : String) : Except DriveErr (List DriveFile) :=
  filesList env (searchQuery fileName)

/-- The folder mime type used throughout the source. -/
def folderMimeType : String := "application/vnd.google-apps.folder"

/-- The query `getAllFilesFromDrive` builds: an equality filter when a
type is given, otherwise the folder-excluding inequality. -/
def listQuery (fileType : Option String) : String :=
  match fileType with
  | some t => "mimeType = " ++ quoteS ++ t ++ quoteS
  | none => "mimeType != " ++ quoteS ++ folderMimeType ++ quoteS

/-- `getAllFilesFromDrive(fileType = null)`. -/
def getAllFilesFromDrive (env : DriveEnv) (fileType : Option String) : Except DriveErr (List DriveFile) :=
  filesList env (listQuery fileType)

/-- `getAllFoldersFromDrive()`. -/
def getAllFoldersFromDrive (env : DriveEnv) : Except DriveErr (List DriveFile) :=
  filesList env ("mimeType = " ++ quoteS ++ folderMimeType ++ quoteS)

/-- The `fileMetadata` object `createFolderInDrive` builds. -/
def mkFolderCreateReq (folderName : String) (parentId : Option String) : CreateReq :=
  { name := folderName
    mimeType := folderMimeType
    parents := match parentId with | some p => [p] | none => [] }

/-- `createFolderInDrive(folderName, parentId)`. -/
def createFolderInDrive (env : DriveEnv) (folderName : String)
    (parentId : Option String) : Except DriveErr FileIdName :=
  env.filesCreate (mkFolderCreateReq folderName parentId)

/-- `deleteFolderFromDrive(folderId)`: returns the backend status code. -/
def deleteFolderFromDrive (env : DriveEnv) (folderId : String) : Except DriveErr Nat :=
  env.filesDelete folderId

/-! ### Local staging configuration (multer, server file lines 18-39) -/

/-- Directory `img` created at startup (used by the local read routes). -/
def imgDir : String := "img"

/-- Directory `uploads` created at startup. -/
def uploadsDir : String := "uploads"

/-- A multer diskStorage configuration: destination directory and staged
filename, both computed per incoming file (`now` = `Date.now()`). -/
structure MulterStorage where
  destination : TempFile → String
  filename : Nat → TempFile → String

/-- The one diskStorage configuration of the server file: every temporary
file goes to `uploadsDir`, named `Date.now() + "-" + originalname`. -/
def storage : MulterStorage :=
  { destination := fun _ => uploadsDir
    filename := fun now file => toString now ++ "-" ++ file.originalname }

/-- The middleware on `POST /drive/upload/image` is `upload.single`, built
from `storage`. -/
def imageUploadStorage : MulterStorage := storage

/-- The middleware on `POST /drive/upload/file` (and on the local routes
and `PUT /drive/file/:fileId`) is the same `upload.single`. -/
def fileUploadStorage : MulterStorage := storage

/-! ### Route handlers (server file lines 231-348) -/

/-- An HTTP response: status code and the message sent (for JSON replies,
the `message` field). -/
structure HttpResponse where
  status : Nat
  body : String
deriving DecidableEq

/-- Outcome of a route that may stage and clean a local file: the
response, the local filesystem afterwards, and the remote/local calls
made after validation. -/
structure RouteOut where
  status : Nat
  body : String
  fs : FS
  calls : List Call
deriving DecidableEq

/-- `PUT /drive/file/:fileId`: 400 without touching anything when no file
part arrived; otherwise run `updateFileInDrive` and map its outcome. -/
def driveUpdateFileRoute (env : DriveEnv) (fs : FS) (fileId : String)
    (reqFile : Option TempFile) : RouteOut :=
  match reqFile with
  | none => ⟨400, "No file provided for update.", fs, []⟩
  | some file =>
    let out := updateFileInDrive env fs fileId file file.mimetype
    match out.result with
    | Except.ok _ => ⟨200, "File updated in Drive successfully", out.fs, out.calls⟩
    | Except.error _ => ⟨500, "Failed to update file in Drive.", out.fs, out.calls⟩

/-- `DELETE /drive/file/:fileId`: 200 exactly on backend status 204. -/
def driveDeleteFileRoute (env : DriveEnv) (fileId : String) : HttpResponse :=
  match deleteFileFromDrive env fileId with
  | Except.ok status =>
    if status = 204 then ⟨200, "File deleted from Drive successfully."⟩
    else ⟨500, "Failed to delete file from Drive."⟩
  | Except.error _ => ⟨500, "Failed to delete file from Drive."⟩

/-- `POST /drive/folder`: 400 before any remote call when `folderName` is
missing/empty (falsy); otherwise run `createFolderInDrive`. -/
def driveCreateFolderRoute (env : DriveEnv) (folderName : String)
    (parentId : Option String) : RouteOut :=
  if folderName.isEmpty then ⟨400, "Folder name is required.", [], []⟩
  else
    match createFolderInDrive env folderName parentId with
    | Except.ok _ =>
      ⟨200, "Folder created successfully", [], [Call.createFile (mkFolderCreateReq folderName parentId)]⟩
    | Except.error _ =>
      ⟨500, "Failed to create folder in Drive.", [], [Call.createFile (mkFolderCreateReq folderName parentId)]⟩

/-! ### Trace-ordering predicate -/

/-- Every remote call of a trace happens strictly before every local
cleanup, and any cleanup is preceded by at least one remote call. -/
def pushOrderedBeforeCleanup (l : List Call) : Prop :=
  (∀ i j (hi : i < l.length) (hj : j < l.length),
      (l.get ⟨i, hi⟩).isRemote = true → (l.get ⟨j, hj⟩).isCleanup = true → i < j) ∧
  (∀ j (hj : j < l.length), (l.get ⟨j, hj⟩).isCleanup = true →
      ∃ i, ∃ hi : i < l.length, i < j ∧ (l.get ⟨i, hi⟩).isRemote = true)

/-! ### Concrete test fixtures -/

/-- A staged incoming file, as multer leaves it. -/
def photoFile : TempFile :=
  ⟨"photo.png", "uploads/1715000000000-photo.png", "image/png"⟩

/-- A backend where every call succeeds. -/
def envOk : DriveEnv :=
  { filesCreate := fun _ => Except.ok ⟨"newid", "photo.png"⟩
    permissionsCreate := fun _ => Except.ok ()
    filesUpdate := fun _ => Except.ok ⟨"upid", "photo.png"⟩
    filesGet := fun fid => Except.ok ⟨fid, "somefile", "text/plain", "viewlink", "contentlink", []⟩
    filesDelete := fun _ => Except.ok 204
    store := [⟨"fold1", "My Folder", folderMimeType⟩, ⟨"doc1", "notes.txt", "text/plain"⟩]
    listErr := none }

/-- A backend whose create call fails. -/
def envCreateFail : DriveEnv :=
  { envOk with filesCreate := fun _ => Except.error "network down" }

/-- A backend whose update call fails. -/
def envUpdateFail : DriveEnv :=
  { envOk with filesUpdate := fun _ => Except.error "network down" }

/-- A backend whose delete call reports 404. -/
def envDelete404 : DriveEnv :=
  { envOk with filesDelete := fun _ => Except.ok 404 }

/-- A search term holding a single quote. -/
def quoteTerm : String := "don" ++ quoteS ++ "t"

/-- `q` is interpreted by the backend as the name-substring filter for
the term `t`. -/
def IsNameSubstringFilter (q t : String) : Prop :=
  ∃ flt, (parseQuery q).map matchesQuery = some flt ∧ ∀ f : DriveFile, flt f = containsStr t f.name

/-! ### Helper lemmas -/

theorem not_mem_unlink (l : FS) (p : String) : p ∉ unlink l p := by
  simp [unlink]

theorem pobc_one (c : Call) (hc : c.isCleanup = false) :
    pushOrderedBeforeCleanup [c] := by
  constructor
  · intro i j hi hj _ hcl
    simp only [List.length_singleton] at hi hj
    interval_cases j
    simp_all
  · intro j hj hcl
    simp only [List.length_singleton] at hj
    interval_cases j
    simp_all

theorem pobc_two_no_cleanup (c1 c2 : Call) (h1 : c1.isCleanup = false)
    (h2 : c2.isCleanup = false) : pushOrderedBeforeCleanup [c1, c2] := by
  constructor
  · intro i j hi hj _ hcl
    simp only [List.length_cons, List.length_nil] at hi hj
    interval_cases j <;> simp_all
  · intro j hj hcl
    simp only [List.length_cons, List.length_nil] at hj
    interval_cases j <;> simp_all

theorem pobc_remote_then_unlink (r : Call) (p : String) (hr : r.isRemote = true)
    (hc : r.isCleanup = false) :
    pushOrderedBeforeCleanup [r, Call.unlinkLocal p] := by
  constructor
  · intro i j hi hj hrem hcl
    simp only [List.length_cons, List.length_nil] at hi hj
    interval_cases i <;> interval_cases j <;>
      first
        | omega
        | simp_all [Call.isRemote, Call.isCleanup]
  · intro j hj hcl
    simp only [List.length_cons, List.length_nil] at hj
    interval_cases j
    · simp_all
    · exact ⟨0, by simp, by omega, hr⟩

theorem pobc_two_remote_then_unlink (r1 r2 : Call) (p : String)
    (h1 : r1.isRemote = true) (h1c : r1.isCleanup = false)
    (h2c : r2.isCleanup = false) :
    pushOrderedBeforeCleanup [r1, r2, Call.unlinkLocal p] := by
  constructor
  · intro i j hi hj hrem hcl
    simp only [List.length_cons, List.length_nil] at hi hj
    interval_cases i <;> interval_cases j <;>
      first
        | omega
        | simp_all [Call.isRemote, Call.isCleanup]
  · intro j hj hcl
    simp only [List.length_cons, List.length_nil] at hj
    interval_cases j
    · simp_all
    · simp_all
    · exact ⟨0, by simp, by omega, h1⟩

/-! ### Claims -/

/-- Claim C3 counterexample: the staged temporary file of an image-typed
upload on `POST /drive/upload/image` is placed in the general `uploads`
directory, not in the `img` directory: the server uses one diskStorage
whose destination is `uploadsDir` for every file. -/
theorem image_staging_dir_counterexample :
    imageUploadStorage.destination photoFile = uploadsDir ∧ imgDir ≠ uploadsDir :=
  ⟨rfl, by decide⟩

/-- Claim C3 (amended): two fixed directories (`img` and `uploads`) are
created at startup, but every staged temporary file, on the image-upload
route as on the general-upload route, is placed in the single `uploads`
directory; the `img` directory is not the staging destination of any
file. -/
theorem staging_single_directory (f : TempFile) :
    imageUploadStorage.destination f = uploadsDir ∧
    fileUploadStorage.destination f = uploadsDir ∧
    imageUploadStorage.destination f ≠ imgDir :=
  ⟨rfl, rfl, show uploadsDir ≠ imgDir from by decide⟩

/-- Claim C4: whatever backend metadata comes back, the returned record's
`publicDownloadLink` is the fixed uc-endpoint template with the record's
own identifier substituted; it is synthesized locally (the backend
response type `MetaResp` carries no such field). -/
theorem metadata_publicDownloadLink (env : DriveEnv) (fileId : String)
    (md : FileMetadata)
    (h : getFileMetadataFromDrive env fileId = Except.ok md) :
    md.publicDownloadLink = ucLinkBase ++ md.id := by
  unfold getFileMetadataFromDrive at h
  cases hg : env.filesGet fileId with
  | error e => rw [hg] at h; cases h
  | ok m => rw [hg] at h; cases h; rfl

/-- Witness for C4 at a concrete backend and identifier. -/
theorem metadata_publicDownloadLink_witness :
    getFileMetadataFromDrive envOk "f1" =
      Except.ok ⟨"f1", "somefile", "text/plain", "viewlink", "contentlink", [],
        "https://drive.google.com/uc?id=f1"⟩ ∧
    ("https://drive.google.com/uc?id=f1" : String) = ucLinkBase ++ "f1" := by
  refine ⟨rfl, ?_⟩
  exact metadata_publicDownloadLink envOk "f1"
    ⟨"f1", "somefile", "text/plain", "viewlink", "contentlink", [],
      "https://drive.google.com/uc?id=f1"⟩ rfl

/-- Claim C5: `DELETE /drive/file/:fileId` replies 200 with the success
message exactly when the backend delete yields status 204; every other
backend status and every backend error yields 500. -/
theorem deleteRoute_200_iff_204 (env : DriveEnv) (fileId : String) :
    (((driveDeleteFileRoute env fileId).status = 200 ∧
      (driveDeleteFileRoute env fileId).body = "File deleted from Drive successfully.") ↔
        env.filesDelete fileId = Except.ok 204) ∧
    ((driveDeleteFileRoute env fileId).status = 200 ∨
      (driveDeleteFileRoute env fileId).status = 500) := by
  unfold driveDeleteFileRoute deleteFileFromDrive
  cases h : env.filesDelete fileId with
  | error e => simp
  | ok n =>
    by_cases hn : n = 204 <;> simp [hn]

/-- Witness for C5: a 204 backend gives 200, a 404 backend gives 500. -/
theorem deleteRoute_200_iff_204_witness :
    (driveDeleteFileRoute envOk "abc").status = 200 ∧
    (driveDeleteFileRoute envDelete404 "abc").status = 500 := by
  refine ⟨((deleteRoute_200_iff_204 envOk "abc").1.mpr rfl).1, ?_⟩
  rfl

/-- Claim C7: a `PUT /drive/file/:fileId` request with no file part and a
`POST /drive/folder` request with empty `folderName` are both answered
400, and in both cases no remote backend call is made. -/
theorem reject_before_remote_call (env : DriveEnv) (fs : FS) (fileId : String)
    (parentId : Option String) :
    ((driveUpdateFileRoute env fs fileId none).status = 400 ∧
      (driveUpdateFileRoute env fs fileId none).calls = []) ∧
    ((driveCreateFolderRoute env "" parentId).status = 400 ∧
      (driveCreateFolderRoute env "" parentId).calls = []) := by
  refine ⟨⟨rfl, rfl⟩, ?_⟩
  have hempty : "".isEmpty = true := rfl
  constructor <;> simp [driveCreateFolderRoute, hempty]

/-- Claim C9: the folder-delete operation is extensionally the same
operation as the file-delete operation: on every backend and identifier
it makes the same `files.delete` call and returns the same status. -/
theorem deleteFolder_eq_deleteFile (env : DriveEnv) (anyId : String) :
    deleteFolderFromDrive env anyId = deleteFileFromDrive env anyId := rfl

/-- Claim C6: listing files with the content-type filter omitted never
returns a folder-typed entry — the query the code builds is the
folder-excluding mime inequality, which the backend filter honours. -/
theorem listFiles_excludes_folders (env : DriveEnv) (files : List DriveFile)
    (h : getAllFilesFromDrive env none = Except.ok files) :
    ∀ f ∈ files, f.mimeType ≠ folderMimeType := by
  unfold getAllFilesFromDrive filesList at h
  cases hl : env.listErr with
  | some e => rw [hl] at h; cases h
  | none =>
    rw [hl] at h
    have hp : parseQuery (listQuery none) = some (DriveQuery.mimeNe folderMimeType) := by
      decide
    rw [hp] at h
    cases h
    intro f hf
    have hm := (List.mem_filter.mp hf).2
    simpa [matchesQuery, bne_iff_ne] using hm

/-- Witness for C6: a store holding one folder and one plain file lists
only the plain file, whose type is not the folder mime type. -/
theorem listFiles_excludes_folders_witness :
    getAllFilesFromDrive envOk none = Except.ok [⟨"doc1", "notes.txt", "text/plain"⟩] ∧
    (⟨"doc1", "notes.txt", "text/plain"⟩ : DriveFile).mimeType ≠ folderMimeType := by
  refine ⟨rfl, ?_⟩
  exact listFiles_excludes_folders envOk [⟨"doc1", "notes.txt", "text/plain"⟩]
    rfl _ (by simp)

/-- Claim C10: the search operation interpolates the term between raw
quotes with no escaping; a term holding a quote (here `don't`) therefore
yields a query the backend does not read as the substring filter for that
term — it is not a well-formed single clause at all. -/
theorem searchQuery_raw_no_escaping :
    (∀ t, searchQuery t = "name contains " ++ quoteS ++ t ++ quoteS) ∧
    containsStr quoteS quoteTerm = true ∧
    ¬ IsNameSubstringFilter (searchQuery quoteTerm) quoteTerm := by
  refine ⟨fun t => rfl, by decide, ?_⟩
  rintro ⟨flt, hflt, _⟩
  have hp : parseQuery (searchQuery quoteTerm) = none := by decide
  rw [hp] at hflt
  simp at hflt

/-- Claim C1: on a successful push (create + grant for upload, update for
update) the staged path no longer exists afterward; on a failed push the
filesystem is untouched (the staged file survives) and the backend error
is what the action returns. -/
theorem temp_cleanup_exactly_on_success (env : DriveEnv) (fs : FS) (file : TempFile)
    (fileType : String) (folderId : Option String) (fileId : String) :
    (∀ d, (uploadFileToDrive env fs file fileType folderId).result = Except.ok d →
        file.path ∉ (uploadFileToDrive env fs file fileType folderId).fs) ∧
    (∀ e, (uploadFileToDrive env fs file fileType folderId).result = Except.error e →
        (uploadFileToDrive env fs file fileType folderId).fs = fs) ∧
    (∀ e, env.filesCreate (mkUploadCreateReq file fileType folderId) = Except.error e →
        (uploadFileToDrive env fs file fileType folderId).result = Except.error e) ∧
    (∀ d, (updateFileInDrive env fs fileId file fileType).result = Except.ok d →
        file.path ∉ (updateFileInDrive env fs fileId file fileType).fs) ∧
    (∀ e, (updateFileInDrive env fs fileId file fileType).result = Except.error e →
        (updateFileInDrive env fs fileId file fileType).fs = fs) ∧
    (∀ e, env.filesUpdate (mkUpdateReq fileId file fileType) = Except.error e →
        (updateFileInDrive env fs fileId file fileType).result = Except.error e) := by
  cases hc : env.filesCreate (mkUploadCreateReq file fileType folderId) with
  | error e0 =>
    cases hu : env.filesUpdate (mkUpdateReq fileId file fileType) <;>
      exact ⟨by simp [uploadFileToDrive, hc], by simp [uploadFileToDrive, hc],
        by simp [uploadFileToDrive, hc],
        by simp [updateFileInDrive, hu, not_mem_unlink],
        by simp [updateFileInDrive, hu], by simp [updateFileInDrive, hu]⟩
  | ok d0 =>
    cases hp : env.permissionsCreate ⟨d0.id, "reader", "anyone"⟩ <;>
    cases hu : env.filesUpdate (mkUpdateReq fileId file fileType) <;>
      exact ⟨by simp [uploadFileToDrive, hc, hp, not_mem_unlink],
        by simp [uploadFileToDrive, hc, hp],
        by simp [uploadFileToDrive, hc, hp],
        by simp [updateFileInDrive, hu, not_mem_unlink],
        by simp [updateFileInDrive, hu], by simp [updateFileInDrive, hu]⟩

/-- Witness for C1: with an all-success backend the staged path is gone;
with a failing create the filesystem is exactly what it was. -/
theorem temp_cleanup_witness :
    photoFile.path ∉ (uploadFileToDrive envOk [photoFile.path] photoFile "image/png" none).fs ∧
    (uploadFileToDrive envCreateFail [photoFile.path] photoFile "image/png" none).fs =
      [photoFile.path] := by
  constructor
  · exact (temp_cleanup_exactly_on_success envOk [photoFile.path] photoFile
      "image/png" none "fid").1 ⟨"newid", "photo.png"⟩ rfl
  · exact (temp_cleanup_exactly_on_success envCreateFail [photoFile.path] photoFile
      "image/png" none "fid").2.1 "network down" rfl

/-- Claim C8: the create action is two-phase — on success its trace is
exactly the remote create, then the permission grant (role reader, type
anyone) on the identifier the create returned, then the local unlink —
and the value returned is the create response, which carries only
identifier and name. -/
theorem upload_two_phase (env : DriveEnv) (fs : FS) (file : TempFile)
    (fileType : String) (folderId : Option String) (d : FileIdName)
    (h : (uploadFileToDrive env fs file fileType folderId).result = Except.ok d) :
    env.filesCreate (mkUploadCreateReq file fileType folderId) = Except.ok d ∧
    (uploadFileToDrive env fs file fileType folderId).calls =
      [Call.createFile (mkUploadCreateReq file fileType folderId),
       Call.createPermission ⟨d.id, "reader", "anyone"⟩,
       Call.unlinkLocal file.path] := by
  cases hc : env.filesCreate (mkUploadCreateReq file fileType folderId) with
  | error e => simp [uploadFileToDrive, hc] at h
  | ok d0 =>
    cases hp : env.permissionsCreate ⟨d0.id, "reader", "anyone"⟩ with
    | error e => simp [uploadFileToDrive, hc, hp] at h
    | ok u =>
      simp [uploadFileToDrive, hc, hp] at h
      subst h
      exact ⟨rfl, by simp [uploadFileToDrive, hc, hp]⟩

/-- Witness for C8 at a concrete all-success backend. -/
theorem upload_two_phase_witness :
    (uploadFileToDrive envOk [photoFile.path] photoFile "image/png" none).result =
      Except.ok ⟨"newid", "photo.png"⟩ ∧
    (uploadFileToDrive envOk [photoFile.path] photoFile "image/png" none).calls =
      [Call.createFile (mkUploadCreateReq photoFile "image/png" none),
       Call.createPermission ⟨"newid", "reader", "anyone"⟩,
       Call.unlinkLocal photoFile.path] := by
  refine ⟨rfl, ?_⟩
  exact (upload_two_phase envOk [photoFile.path] photoFile "image/png" none
    ⟨"newid", "photo.png"⟩ rfl).2

/-- Claim C2: in the trace of one upload action and of one update action,
every remote call comes strictly before any local cleanup, and a cleanup
only ever follows a completed remote push. -/
theorem push_before_cleanup (env : DriveEnv) (fs : FS) (file : TempFile)
    (fileType : String) (folderId : Option String) (fileId : String) :
    pushOrderedBeforeCleanup (uploadFileToDrive env fs file fileType folderId).calls ∧
    pushOrderedBeforeCleanup (updateFileInDrive env fs fileId file fileType).calls := by
  constructor
  · cases hc : env.filesCreate (mkUploadCreateReq file fileType folderId) with
    | error e =>
      have := pobc_one (Call.createFile (mkUploadCreateReq file fileType folderId)) rfl
      simpa [uploadFileToDrive, hc] using this
    | ok d0 =>
      cases hp : env.permissionsCreate ⟨d0.id, "reader", "anyone"⟩ with
      | error e =>
        have := pobc_two_no_cleanup
          (Call.createFile (mkUploadCreateReq file fileType folderId))
          (Call.createPermission ⟨d0.id, "reader", "anyone"⟩) rfl rfl
        simpa [uploadFileToDrive, hc, hp] using this
      | ok u =>
        have := pobc_two_remote_then_unlink
          (Call.createFile (mkUploadCreateReq file fileType folderId))
          (Call.createPermission ⟨d0.id, "reader", "anyone"⟩) file.path rfl rfl rfl
        simpa [uploadFileToDrive, hc, hp] using this
  · cases hu : env.filesUpdate (mkUpdateReq fileId file fileType) with
    | error e =>
      have := pobc_one (Call.updateFile (mkUpdateReq fileId file fileType)) rfl
      simpa [updateFileInDrive, hu] using this
    | ok d0 =>
      have := pobc_remote_then_unlink
        (Call.updateFile (mkUpdateReq fileId file fileType)) file.path rfl rfl
      simpa [updateFileInDrive, hu] using this
